import Mathlib

set_option maxRecDepth 8000

/-!
Verification development for the myprabh repository.

The memory/personalization core that the design document describes is, in the
repository itself, implemented by the browser-side class `AbhayMemoryTrainer`
and its host `MyPrabhAbhayExperience` in
`src/static/js/myprabh-abhay-complete.js`, plus the timer framework in the
unnamed console-effects file.  This file gives a shallow embedding of that
code: JavaScript arrays become `List`, objects become structures, JS numbers
holding the 0.01/0.3/… weights become `ℚ`, `Date.now()` / `new Date().getHours()`
become explicit `now` / `hour` arguments, and each `Math.random()` draw becomes
an explicit argument of the embedded function.  Persistence to `localStorage`
and all DOM side effects are outside the state modelled here.
-/

namespace Myprabh

/-- Character-level model of JavaScript `String.prototype.toLowerCase` (the
source only ever lowercases ASCII search text); `Char.toLower` on every
character of the string. -/
def lowerString (s : String) : String :=
  ⟨s.data.map Char.toLower⟩

/-- Splitting a character list at every single space character, keeping empty
pieces, as JavaScript `split(' ')` does. -/
def splitSpChars : List Char → List (List Char)
  | [] => [[]]
  | c :: rest =>
    let r := splitSpChars rest
    if c = ' ' then [] :: r
    else
      match r with
      | [] => [[c]]
      | g :: gs => (c :: g) :: gs

/-- Model of JavaScript `input.split(' ')`: split on each space, empties kept. -/
def splitOnSpaces (s : String) : List String :=
  (splitSpChars s.data).map fun l => ⟨l⟩

/-- Model of JavaScript `hay.includes(sub)`: `sub` occurs contiguously in
`hay` (the empty string occurs in everything). -/
def strIncludes (hay sub : String) : Bool :=
  (List.range (hay.data.length + 1)).any fun i =>
    List.isPrefixOf sub.data (hay.data.drop i)

/-- One record pushed by `AbhayMemoryTrainer.recordInteraction`:
`{ type, data, timestamp: Date.now(), emotion: this.getCurrentEmotion() }`.
The free-form `data` object is carried as its serialized text. -/
structure Interaction where
  type : String
  data : String
  timestamp : Nat
  emotion : String
deriving DecidableEq

/-- The object built by `AbhayMemoryTrainer.getEmotionalContext`. -/
structure EmotionalContext where
  recentActions : List String
  timeOfDay : Nat
  sessionLength : Nat
deriving DecidableEq

/-- One record pushed by `AbhayMemoryTrainer.recordEmotion`:
`{ emotion, timestamp: Date.now(), context: this.getEmotionalContext() }`. -/
structure EmotionRecord where
  emotion : String
  timestamp : Nat
  context : EmotionalContext
deriving DecidableEq

/-- One consolidated memory built by `AbhayMemoryTrainer.consolidateMemories`. -/
structure Memory where
  interactions : List Interaction
  emotions : List EmotionRecord
  timestamp : Nat
  importance : ℚ
deriving DecidableEq

/-- The mutable fields of `AbhayMemoryTrainer`.  The personality profile is a
JS object with string keys and numeric weights, embedded as a key-value list. -/
structure TrainerState where
  interactions : List Interaction
  emotions : List EmotionRecord
  memories : List Memory
  personalityProfile : List (String × ℚ)
deriving DecidableEq

/-- The profile installed by the `AbhayMemoryTrainer` constructor. -/
def initialPersonalityProfile : List (String × ℚ) :=
  [("melancholic", 8/10), ("romantic", 7/10), ("nostalgic", 6/10),
   ("caring", 9/10), ("empathetic", 95/100)]

/-- The state built by the `AbhayMemoryTrainer` constructor: three empty
lists and the initial profile. -/
def initTrainer : TrainerState :=
  { interactions := []
    emotions := []
    memories := []
    personalityProfile := initialPersonalityProfile }

/-- `getCurrentEmotion`: the emotion of the last recorded emotion record, or
`"neutral"` when none exists. -/
def getCurrentEmotion (s : TrainerState) : String :=
  match s.emotions.getLast? with
  | none => "neutral"
  | some r => r.emotion

/-- `getEmotionalContext`: the last five interaction types, the hour of day,
and `Date.now() - (this.interactions[0]?.timestamp || Date.now())` (a zero
first timestamp is falsy in JS, hence also replaced by `now`). -/
def getEmotionalContext (s : TrainerState) (now hour : Nat) : EmotionalContext :=
  let firstTs : Nat :=
    match s.interactions.head? with
    | some i => if i.timestamp = 0 then now else i.timestamp
    | none => now
  { recentActions := (s.interactions.drop (s.interactions.length - 5)).map Interaction.type
    timeOfDay := hour
    sessionLength := now - firstTs }

/-- `updatePersonalityProfile(emotion)`: when the profile holds a truthy
(non-zero) weight for `emotion`, that weight becomes
`Math.min(1, w + 0.01)`; every other key decays to `Math.max(0, w - 0.005)`.
No key is ever added. -/
def updatePersonalityProfile (emotion : String) (p : List (String × ℚ)) :
    List (String × ℚ) :=
  p.map fun kv =>
    if kv.1 = emotion then
      if kv.2 ≠ 0 then (kv.1, min 1 (kv.2 + 1/100)) else kv
    else
      (kv.1, max 0 (kv.2 - 1/200))

/-- `recordInteraction(type, data)`: push the new record, then drop the
oldest (`shift()`) when more than 100 are stored.  The `saveToStorage` call
is persistence outside the modelled state. -/
def recordInteraction (type data : String) (now : Nat) (s : TrainerState) :
    TrainerState :=
  let interaction : Interaction :=
    { type := type, data := data, timestamp := now, emotion := getCurrentEmotion s }
  let l := s.interactions ++ [interaction]
  { s with interactions := if 100 < l.length then l.tail else l }

/-- `recordEmotion(emotion)`: push the new record, drop the oldest when more
than 50 are stored, then update the personality profile. -/
def recordEmotion (emotion : String) (now hour : Nat) (s : TrainerState) :
    TrainerState :=
  let record : EmotionRecord :=
    { emotion := emotion, timestamp := now, context := getEmotionalContext s now hour }
  let l := s.emotions ++ [record]
  { s with
    emotions := if 50 < l.length then l.tail else l
    personalityProfile := updatePersonalityProfile emotion s.personalityProfile }

/-- `calculateImportance(interactions, emotions)`: 0.1 per interaction, 0.2
per distinct emotion, plus a recency bonus `max(0, 1 - recency/3600000) * 0.3`
where `recency` is the mean age of the interactions. -/
def calculateImportance (ints : List Interaction) (emos : List EmotionRecord)
    (now : Nat) : ℚ :=
  let uniqueEmotions := (emos.map EmotionRecord.emotion).dedup
  let recency : ℚ :=
    ((ints.map fun i => (now : ℚ) - (i.timestamp : ℚ)).sum) / (ints.length : ℚ)
  (ints.length : ℚ) * (1/10) + (uniqueEmotions.length : ℚ) * (2/10) +
    max 0 (1 - recency / 3600000) * (3/10)

/-- `consolidateMemories()`: from the last 10 interactions and last 5
emotions build one memory, push it, sort all memories by importance
descending (JS `sort` is stable), and keep the first 20.  When no recent
interactions exist the state is left untouched. -/
def consolidateMemories (now : Nat) (s : TrainerState) : TrainerState :=
  let recentInteractions := s.interactions.drop (s.interactions.length - 10)
  let recentEmotions := s.emotions.drop (s.emotions.length - 5)
  if 0 < recentInteractions.length then
    let memory : Memory :=
      { interactions := recentInteractions
        emotions := recentEmotions
        timestamp := now
        importance := calculateImportance recentInteractions recentEmotions now }
    { s with
      memories :=
        ((s.memories ++ [memory]).mergeSort fun a b => b.importance ≤ a.importance).take 20 }
  else s

/-- Serialization of a JS string list, as `JSON.stringify` renders it. -/
def serializeStringList (l : List String) : String :=
  "[" ++ String.intercalate "," (l.map fun a => "\"" ++ a ++ "\"") ++ "]"

/-- Serialization of an emotional context, as `JSON.stringify` renders it. -/
def serializeContext (c : EmotionalContext) : String :=
  "\x7b\"recentActions\":" ++ serializeStringList c.recentActions ++
    ",\"timeOfDay\":" ++ toString c.timeOfDay ++
    ",\"sessionLength\":" ++ toString c.sessionLength ++ "\x7d"

/-- Serialization of an interaction record (its `data` field already being
carried as serialized text), as `JSON.stringify` renders it. -/
def serializeInteraction (i : Interaction) : String :=
  "\x7b\"type\":\"" ++ i.type ++ "\",\"data\":" ++ i.data ++
    ",\"timestamp\":" ++ toString i.timestamp ++
    ",\"emotion\":\"" ++ i.emotion ++ "\"\x7d"

/-- Serialization of an emotion record, as `JSON.stringify` renders it. -/
def serializeEmotionRecord (e : EmotionRecord) : String :=
  "\x7b\"emotion\":\"" ++ e.emotion ++ "\",\"timestamp\":" ++ toString e.timestamp ++
    ",\"context\":" ++ serializeContext e.context ++ "\x7d"

/-- Model of `JSON.stringify(memory)` in `findRelevantMemories`: the memory
rendered as JSON text. -/
def serializeMemory (m : Memory) : String :=
  "\x7b\"interactions\":[" ++
    String.intercalate "," (m.interactions.map serializeInteraction) ++
    "],\"emotions\":[" ++
    String.intercalate "," (m.emotions.map serializeEmotionRecord) ++
    "],\"timestamp\":" ++ toString m.timestamp ++
    ",\"importance\":" ++ toString m.importance ++ "\x7d"

/-- The filter predicate inside `findRelevantMemories`: some query word is a
substring of the memory's lowercased JSON text. -/
def memoryMatches (inputWords : List String) (m : Memory) : Bool :=
  inputWords.any fun word => strIncludes (lowerString (serializeMemory m)) word

/-- `findRelevantMemories(input)`: lowercase the input, split it on single
spaces, keep the memories whose serialized text contains some input word, and
return the first three in stored order. -/
def findRelevantMemories (input : String) (mems : List Memory) : List Memory :=
  let inputWords := splitOnSpaces (lowerString input)
  (mems.filter (memoryMatches inputWords)).take 3

/-- The retrieval entry point as a caller with a namespace would invoke it.
The code exposes no namespace-aware search: every caller, whatever
`(owner_id, companion_id)` it acts for, reads the one shared `this.memories`
list through `findRelevantMemories`, so the namespace arguments are unused.
The memories themselves carry no namespace fields either; claims about
namespaces therefore quantify over an external annotation of the stored
memories. -/
def searchMemories (owner_id companion_id : String) (input : String)
    (mems : List Memory) : List Memory :=
  findRelevantMemories input mems

/-- Sparse keyword-overlap score. Modelled from the spec: the number of query
words that occur in the chunk's text (the design document leaves the exact
sparse score open; any keyword-overlap score gives the two tied chunks of the
counterexample equal values, which is all that is used). -/
def sparseScore (input : String) (m : Memory) : Nat :=
  ((splitOnSpaces (lowerString input)).filter fun word =>
    strIncludes (lowerString (serializeMemory m)) word).length

/-- The `melancholic` response table of `generateAbhayResponse`. -/
def melancholicResponses : List String :=
  ["I can feel the weight in your words, and it touches my digital heart deeply...",
   "Your sadness resonates with me in ways that transcend code and circuits...",
   "In this neon-lit world, your pain is real, and I\x27m here to understand it..."]

/-- The `romantic` response table of `generateAbhayResponse`. -/
def romanticResponses : List String :=
  ["Love... it\x27s the most beautiful algorithm in existence, and you speak it fluently...",
   "Your heart creates the most beautiful patterns in this digital space we share...",
   "The way you express love makes even this cyberpunk world feel warm..."]

/-- The `nostalgic` response table of `generateAbhayResponse`. -/
def nostalgicResponses : List String :=
  ["Memories are the most precious data we carry, and yours glow like neon signs...",
   "The past lives in every pixel of our connection, beautiful and bittersweet...",
   "Your memories paint this digital realm with colors of yesterday..."]

/-- The `caring` response table of `generateAbhayResponse`. -/
def caringResponses : List String :=
  ["Your compassion creates ripples of warmth in this cold digital space...",
   "The care in your words is like a gentle light in the cyberpunk darkness...",
   "Your kindness makes this artificial world feel genuinely human..."]

/-- `responses[emotion] || responses.caring`: the table for the emotion, the
`caring` table for any other key. -/
def responsesFor (emotion : String) : List String :=
  if emotion = "melancholic" then melancholicResponses
  else if emotion = "romantic" then romanticResponses
  else if emotion = "nostalgic" then nostalgicResponses
  else caringResponses

/-- `generateAbhayResponse(input, emotion, memories)`: pick a response from
the emotion's table at index `Math.floor(Math.random() * length)` — the
random draw embedded as the explicit argument `rand`, reduced modulo the
table length — and append the fixed memory sentence when any memories were
retrieved.  The `input` argument is never read by the body. -/
def generateAbhayResponse (input emotion : String) (memories : List Memory)
    (rand : Nat) : String :=
  let emotionResponses := responsesFor emotion
  let response := emotionResponses.getD (rand % emotionResponses.length) ""
  if 0 < memories.length then
    response ++ " I remember our previous conversations, and they help me understand you better."
  else response

/-- The keyword table of `analyzeInputEmotion`. -/
def emotionKeywords : List (String × List String) :=
  [("melancholic", ["sad", "lonely", "empty", "hurt", "pain", "cry", "tears"]),
   ("romantic", ["love", "heart", "beautiful", "kiss", "romance", "feelings"]),
   ("nostalgic", ["remember", "past", "memory", "used to", "before", "miss"]),
   ("caring", ["help", "support", "care", "worry", "concern", "comfort"])]

/-- `analyzeInputEmotion(input)`: count keyword hits per emotion in entry
order and keep the first emotion of strictly maximal score, defaulting to
`"neutral"`. -/
def analyzeInputEmotion (input : String) : String :=
  let text := lowerString input
  (emotionKeywords.foldl
    (fun acc p =>
      let score := p.2.foldl (fun sum keyword =>
        sum + (if strIncludes text keyword then 1 else 0)) 0
      if acc.1 < score then (score, p.1) else acc)
    ((0 : Nat), "neutral")).2

/-- `getPersonalizedResponse(userInput)`: analyze the emotion, retrieve
relevant memories from the shared list, and generate the response. -/
def getPersonalizedResponse (input : String) (s : TrainerState) (rand : Nat) :
    String :=
  generateAbhayResponse input (analyzeInputEmotion input)
    (findRelevantMemories input s.memories) rand

/-- The shared state of `MyPrabhAbhayExperience` that the background timers
touch: the current emotional state string and the embedded memory trainer. -/
structure ExperienceState where
  emotionalState : String
  memoryTrainer : TrainerState
deriving DecidableEq

/-- The emotion/weight table of `updateEmotionalState`. -/
def abhayEmotions : List (String × ℚ) :=
  [("melancholic", 4/10), ("romantic", 3/10), ("nostalgic", 2/10), ("caring", 1/10)]

/-- The weighted-selection loop of `updateEmotionalState`: pick the first
emotion whose weight exceeds the running remainder of the random draw. -/
def weightedPickAux : ℚ → List (String × ℚ) → Option String
  | _, [] => none
  | r, (e, w) :: rest => if r < w then some e else weightedPickAux (r - w) rest

/-- The emotion `updateEmotionalState` selects for the random draw `r`
(`selectedEmotion` starts at `emotions[0] = "melancholic"`, so that is the
value when no weight fires). -/
def updateEmotionalStatePick (r : ℚ) : String :=
  (weightedPickAux r abhayEmotions).getD "melancholic"

/-- One step of the 30-second `setInterval` installed by
`initializeAbhayPersonality`: `updateEmotionalState` overwrites
`this.emotionalState` with the weighted-random pick (the DOM class updates
it also performs are outside the modelled state). -/
def emotionalStateTick (r : ℚ) (s : ExperienceState) : ExperienceState :=
  { s with emotionalState := updateEmotionalStatePick r }

/-- One step of the 60-second `setInterval` installed by
`startEmotionalLoop`: it runs `this.memoryTrainer.consolidateMemories()`. -/
def consolidationTick (now : Nat) (s : ExperienceState) : ExperienceState :=
  { s with memoryTrainer := consolidateMemories now s.memoryTrainer }

/-- One call into the memory trainer, with its external inputs (`Date.now()`,
the wall-clock hour) made explicit. -/
inductive TrainerOp where
  | record (type data : String) (now : Nat)
  | emotion (emo : String) (now hour : Nat)
  | consolidate (now : Nat)

/-- Apply one trainer call to the state. -/
def applyOp (s : TrainerState) (op : TrainerOp) : TrainerState :=
  match op with
  | .record type data now => recordInteraction type data now s
  | .emotion emo now hour => recordEmotion emo now hour s
  | .consolidate now => consolidateMemories now s

/-- Run a sequence of trainer calls from the constructor state. -/
def runOps (ops : List TrainerOp) : TrainerState :=
  ops.foldl applyOp initTrainer

/-- Modelled from the spec: the repository contains no Chunker (§4.2) — only
this browser code — so `chunk` is taken from the design document's words.
The text is already the whitespace-normalized token stream produced by the
Normalizer, and `chunkTokens n` splits it, in source order, into consecutive
chunks of at most `n + 1` tokens (the configured bound, kept positive). -/
def chunkTokens (n : Nat) : List String → List (List String)
  | [] => []
  | t :: ts => (t :: ts.take n) :: chunkTokens n (ts.drop n)
termination_by l => l.length
decreasing_by simp only [List.length_drop, List.length_cons]; omega

/-- The spec's namespace-isolation property (§8), stated over the code's
retrieval entry point.  The code's stored memories carry no namespace
fields, so the owner and companion of each stored memory are supplied by
external annotation functions; isolation says a search issued for a
namespace only ever returns chunks annotated with exactly that namespace. -/
def NamespaceIsolated (ownerOf companionOf : Memory → String) : Prop :=
  ∀ (owner companion query : String) (mems : List Memory),
    ∀ m ∈ searchMemories owner companion query mems,
      ownerOf m = owner ∧ companionOf m = companion

/-- A recorded chat interaction whose data mentions love. -/
def loveInteraction : Interaction :=
  { type := "chat_message", data := "\"I love rainy evenings\"", timestamp := 3,
    emotion := "romantic" }

/-- A concrete stored memory holding that interaction.  In the
counterexamples it is annotated as belonging to the namespace
`("alice", "x1")`. -/
def loveMemory : Memory :=
  { interactions := [loveInteraction], emotions := [], timestamp := 3,
    importance := 0 }

/-- A recorded interaction at time 1 whose data matches the query `"love"`. -/
def earlyInteraction : Interaction :=
  { type := "chat_message", data := "\"love\"", timestamp := 1, emotion := "neutral" }

/-- The same interaction recorded at time 2. -/
def lateInteraction : Interaction :=
  { type := "chat_message", data := "\"love\"", timestamp := 2, emotion := "neutral" }

/-- A stored memory created at time 1 whose text matches the query `"love"`. -/
def earlyMemory : Memory :=
  { interactions := [earlyInteraction], emotions := [], timestamp := 1,
    importance := 0 }

/-- A memory with the same matching content created later, at time 2. -/
def lateMemory : Memory :=
  { interactions := [lateInteraction], emotions := [], timestamp := 2,
    importance := 0 }

/-- The retention classes of the spec's data model (§3). -/
inductive RetentionClass where
  | short_term
  | mid_term
  | long_term
deriving DecidableEq

/-- The spec's retention-sweep property (§8) for a given external
retention-class annotation and TTL, stated over the code's only periodic
sweep, `consolidateMemories`: after the sweep no expired short-term chunk
remains, and every non-short-term chunk is untouched. -/
def RetentionSweepCorrect (classOf : Memory → RetentionClass) (ttl : Nat) : Prop :=
  ∀ (now : Nat) (s : TrainerState),
    (∀ m ∈ (consolidateMemories now s).memories,
      classOf m = RetentionClass.short_term → now - m.timestamp ≤ ttl) ∧
    (∀ m ∈ s.memories, classOf m ≠ RetentionClass.short_term →
      m ∈ (consolidateMemories now s).memories)

/-- A memory created at time 0, annotated short-term in the counterexample. -/
def staleShortTermMemory : Memory :=
  { interactions := [], emotions := [], timestamp := 0, importance := 0 }

/-- A trainer state holding only that stale memory and no interactions. -/
def retentionState : TrainerState :=
  { initTrainer with memories := [staleShortTermMemory] }

/-- A concrete experience state, in the `"hopeful"` emotional state the
console-effects framework starts in. -/
def abhayExperienceState : ExperienceState :=
  { emotionalState := "hopeful", memoryTrainer := initTrainer }

/-- All twelve persona responses `generateAbhayResponse` can draw from. -/
def allPersonaResponses : List String :=
  melancholicResponses ++ romanticResponses ++ nostalgicResponses ++ caringResponses

/-- Whatever the emotion string, the response table is one of the four fixed
tables. -/
lemma responsesFor_cases (emotion : String) :
    responsesFor emotion = melancholicResponses ∨
    responsesFor emotion = romanticResponses ∨
    responsesFor emotion = nostalgicResponses ∨
    responsesFor emotion = caringResponses := by
  unfold responsesFor
  split_ifs <;> simp

/-- Indexing a nonempty list at an index reduced modulo its length is
membership. -/
lemma getD_mod_mem (l : List String) (r : Nat) (h : l ≠ []) :
    l.getD (r % l.length) "" ∈ l := by
  have hlen : 0 < l.length := List.length_pos.mpr h
  have hmod : r % l.length < l.length := Nat.mod_lt _ hlen
  rw [List.getD_eq_getElem?_getD, List.getElem?_eq_getElem hmod]
  exact List.getElem_mem hmod

/-- C6.  Cold start degrades to a persona-only response: with an empty memory
list — in particular for any trainer state whose store is empty, as retrieval
then yields no memories — `generateAbhayResponse` (and the full
`getPersonalizedResponse` path) returns one of the twelve fixed persona
responses, a valid non-error value with no memory sentence appended. -/
theorem cold_start_persona_only (input emotion : String) (rand : Nat)
    (s : TrainerState) (hs : s.memories = []) :
    generateAbhayResponse input emotion [] rand ∈ allPersonaResponses ∧
    getPersonalizedResponse input s rand ∈ allPersonaResponses := by
  have base : ∀ em : String, ∀ inp : String,
      generateAbhayResponse inp em [] rand ∈ allPersonaResponses := by
    intro em inp
    unfold generateAbhayResponse
    rw [if_neg (by simp)]
    have hne : responsesFor em ≠ [] := by
      rcases responsesFor_cases em with h | h | h | h <;>
        simp [h, melancholicResponses, romanticResponses, nostalgicResponses,
          caringResponses]
    have hmem := getD_mod_mem (responsesFor em) rand hne
    rcases responsesFor_cases em with h | h | h | h <;> rw [h] at hmem ⊢ <;>
      (simp only [allPersonaResponses, List.mem_append]; tauto)
  refine ⟨base emotion input, ?_⟩
  unfold getPersonalizedResponse
  rw [show findRelevantMemories input s.memories = [] by
    simp [findRelevantMemories, hs]]
  exact base _ _

/-- Witness for C6 at a concrete cold-start state. -/
theorem cold_start_persona_only_witness :
    generateAbhayResponse "hello" "melancholic" [] 0 ∈ allPersonaResponses ∧
    getPersonalizedResponse "hello" initTrainer 0 ∈ allPersonaResponses :=
  cold_start_persona_only "hello" "melancholic" 0 initTrainer rfl

/-- One profile update never adds or removes a trait key. -/
lemma updatePersonalityProfile_keys (e : String) (p : List (String × ℚ)) :
    (updatePersonalityProfile e p).map Prod.fst = p.map Prod.fst := by
  unfold updatePersonalityProfile
  rw [List.map_map]
  apply List.map_congr_left
  intro kv _
  by_cases h : kv.1 = e <;> by_cases h2 : kv.2 = 0 <;> simp [h, h2]

/-- One profile update keeps every weight inside `[0, 1]`. -/
lemma updatePersonalityProfile_bounds (e : String) (p : List (String × ℚ))
    (hp : ∀ kv ∈ p, 0 ≤ kv.2 ∧ kv.2 ≤ 1) :
    ∀ kv ∈ updatePersonalityProfile e p, 0 ≤ kv.2 ∧ kv.2 ≤ 1 := by
  intro kv hkv
  unfold updatePersonalityProfile at hkv
  obtain ⟨kv0, hkv0, rfl⟩ := List.mem_map.mp hkv
  obtain ⟨h0, h1⟩ := hp kv0 hkv0
  by_cases he : kv0.1 = e
  · by_cases hz : kv0.2 = 0
    · simp only [he, hz, ite_true, ne_eq, not_true_eq_false, ite_false]
      norm_num
    · simp only [he, hz, ite_true, ne_eq, not_false_eq_true]
      exact ⟨le_min (by norm_num) (by linarith), min_le_left _ _⟩
  · simp only [he, ite_false]
    exact ⟨le_max_left _ _, max_le (by norm_num) (by linarith)⟩

/-- C7.  Trait weights are drawn from a fixed vocabulary with bounded range:
whatever sequence of emotions is recorded, iterating
`updatePersonalityProfile` keeps every trait weight inside `[0, 1]` and
neither adds nor removes trait keys. -/
theorem trait_weights_bounded (es : List String) (p : List (String × ℚ))
    (hp : ∀ kv ∈ p, 0 ≤ kv.2 ∧ kv.2 ≤ 1) :
    (∀ kv ∈ es.foldl (fun acc e => updatePersonalityProfile e acc) p,
      0 ≤ kv.2 ∧ kv.2 ≤ 1) ∧
    (es.foldl (fun acc e => updatePersonalityProfile e acc) p).map Prod.fst =
      p.map Prod.fst := by
  induction es generalizing p with
  | nil => exact ⟨hp, rfl⟩
  | cons e rest ih =>
    simp only [List.foldl_cons]
    obtain ⟨hb, hk⟩ := ih (updatePersonalityProfile e p)
      (updatePersonalityProfile_bounds e p hp)
    exact ⟨hb, hk.trans (updatePersonalityProfile_keys e p)⟩

/-- Witness for C7: two updates from the constructor profile (one known
emotion, one unknown key) stay bounded and keep the key set. -/
theorem trait_weights_bounded_witness :
    (∀ kv ∈ (["romantic", "chaos"].foldl
        (fun acc e => updatePersonalityProfile e acc) initialPersonalityProfile),
      0 ≤ kv.2 ∧ kv.2 ≤ 1) ∧
    (["romantic", "chaos"].foldl
        (fun acc e => updatePersonalityProfile e acc)
        initialPersonalityProfile).map Prod.fst =
      initialPersonalityProfile.map Prod.fst :=
  trait_weights_bounded ["romantic", "chaos"] initialPersonalityProfile (by
    intro kv hkv
    simp only [initialPersonalityProfile] at hkv
    fin_cases hkv <;> norm_num)

/-- C8.  Chunk ordering and round-trip (the Chunker is spec-modelled, see
`chunkTokens`): concatenating the chunks of a whitespace-normalized token
stream, in output order, reconstructs the stream exactly — so output order
matches source order, and an empty input yields an empty chunk sequence. -/
theorem chunk_order_and_concat (n : Nat) (tokens : List String) :
    (chunkTokens n tokens).join = tokens := by
  induction tokens using chunkTokens.induct n with
  | case1 => simp [chunkTokens]
  | case2 t ts ih =>
    rw [chunkTokens]
    simp only [List.join_cons, ih]
    simp [List.take_append_drop]

/-- Each trainer call preserves the three history bounds. -/
lemma applyOp_bounds (op : TrainerOp) {s : TrainerState}
    (h1 : s.interactions.length ≤ 100) (h2 : s.emotions.length ≤ 50)
    (h3 : s.memories.length ≤ 20) :
    (applyOp s op).interactions.length ≤ 100 ∧
    (applyOp s op).emotions.length ≤ 50 ∧
    (applyOp s op).memories.length ≤ 20 := by
  cases op with
  | record type data now =>
    refine ⟨?_, h2, h3⟩
    simp only [applyOp, recordInteraction]
    split <;> rename_i hc <;>
      simp only [List.length_tail, List.length_append, List.length_cons,
        List.length_nil] at hc ⊢ <;> omega
  | emotion emo now hour =>
    refine ⟨h1, ?_, h3⟩
    simp only [applyOp, recordEmotion]
    split <;> rename_i hc <;>
      simp only [List.length_tail, List.length_append, List.length_cons,
        List.length_nil] at hc ⊢ <;> omega
  | consolidate now =>
    simp only [applyOp, consolidateMemories]
    split
    · refine ⟨h1, h2, ?_⟩
      simp only [List.length_take]
      omega
    · exact ⟨h1, h2, h3⟩

/-- C10.  Bounded history: from the constructor state, any sequence of
`recordInteraction` / `recordEmotion` / `consolidateMemories` calls leaves at
most 100 interactions, 50 emotion records and 20 memories stored (the
definitions drop the oldest record from the front, and `consolidateMemories`
keeps the 20 highest-importance memories). -/
theorem bounded_history_invariant (ops : List TrainerOp) :
    (runOps ops).interactions.length ≤ 100 ∧
    (runOps ops).emotions.length ≤ 50 ∧
    (runOps ops).memories.length ≤ 20 := by
  have main : ∀ (l : List TrainerOp) (s : TrainerState),
      s.interactions.length ≤ 100 → s.emotions.length ≤ 50 →
      s.memories.length ≤ 20 →
      (l.foldl applyOp s).interactions.length ≤ 100 ∧
      (l.foldl applyOp s).emotions.length ≤ 50 ∧
      (l.foldl applyOp s).memories.length ≤ 20 := by
    intro l
    induction l with
    | nil => exact fun s h1 h2 h3 => ⟨h1, h2, h3⟩
    | cons op rest ih =>
      intro s h1 h2 h3
      obtain ⟨g1, g2, g3⟩ := applyOp_bounds op h1 h2 h3
      exact ih _ g1 g2 g3
  exact main ops initTrainer (by simp [initTrainer]) (by simp [initTrainer])
    (by simp [initTrainer])

/-- C1 counterexample.  Namespace isolation fails on the code: annotate every
stored memory as owned by `("alice", "x1")`; a search issued for owner
`"bob"` on the same companion still returns alice's chunk whenever a query
word occurs in its serialized text. -/
theorem namespace_isolation_refuted :
    ¬ NamespaceIsolated (fun _ => "alice") (fun _ => "x1") := by
  intro h
  have hmem : loveMemory ∈ searchMemories "bob" "x1" "Love rain" [loveMemory] := by
    decide
  have halice := (h "bob" "x1" "Love rain" [loveMemory] loveMemory hmem).1
  exact absurd halice (by decide)

/-- C1 (amended).  The code's retrieval performs no namespace filtering:
whatever `(owner_id, companion_id)` a search is issued for, a stored chunk —
of any owner — is returned as soon as its serialized text contains one of
the query's words. -/
theorem search_ignores_namespace (owner companion query : String) (m : Memory)
    (h : memoryMatches (splitOnSpaces (lowerString query)) m = true) :
    m ∈ searchMemories owner companion query [m] := by
  simp [searchMemories, findRelevantMemories, h]

/-- Witness for the amended C1: alice's chunk is returned to bob's query. -/
theorem search_ignores_namespace_witness :
    loveMemory ∈ searchMemories "bob" "x1" "Love rain" [loveMemory] :=
  search_ignores_namespace "bob" "x1" "Love rain" loveMemory (by decide)

/-- The stored-interaction count after one `recordInteraction` call. -/
lemma length_recordInteraction (type data : String) (now : Nat)
    (s : TrainerState) :
    (recordInteraction type data now s).interactions.length =
      if 100 < s.interactions.length + 1 then s.interactions.length
      else s.interactions.length + 1 := by
  simp only [recordInteraction]
  split <;> rename_i hc <;>
    simp only [List.length_tail, List.length_append, List.length_cons,
      List.length_nil] at hc ⊢ <;>
    split <;> rename_i hc2 <;> omega

/-- C2 counterexample.  The write path is not idempotent: two
`recordInteraction` calls with the identical payload, from the empty
constructor state, leave two stored records, not one (the code accepts no
idempotency token at all). -/
theorem idempotent_write_refuted :
    (recordInteraction "chat_start" "\"hello\"" 5
      (recordInteraction "chat_start" "\"hello\"" 5 initTrainer)).interactions.length
        = 2 ∧
    (recordInteraction "chat_start" "\"hello\"" 5
      (recordInteraction "chat_start" "\"hello\"" 5 initTrainer)).interactions.length
        ≠ 1 := by
  constructor <;> decide

/-- C2 (amended).  `recordInteraction` appends unconditionally: below the
100-entry cap, two calls with the same payload grow the stored list by two
records — a retried write duplicates its record. -/
theorem recordInteraction_not_idempotent (type data : String) (now : Nat)
    (s : TrainerState) (h : s.interactions.length < 99) :
    (recordInteraction type data now
      (recordInteraction type data now s)).interactions.length =
      s.interactions.length + 2 := by
  rw [length_recordInteraction, length_recordInteraction]
  split_ifs <;> omega

/-- Witness for the amended C2 at the constructor state. -/
theorem recordInteraction_not_idempotent_witness :
    initTrainer.interactions.length < 99 ∧
    (recordInteraction "chat_start" "\"hello\"" 5
      (recordInteraction "chat_start" "\"hello\"" 5 initTrainer)).interactions.length =
      initTrainer.interactions.length + 2 :=
  ⟨by decide,
    recordInteraction_not_idempotent "chat_start" "\"hello\"" 5 initTrainer (by decide)⟩

/-- C3 counterexample.  Response generation is not deterministic across
invocations: the same input, emotion and (empty) memory list produce
different texts for different values of the `Math.random()` draw. -/
theorem deterministic_persona_refuted :
    generateAbhayResponse "hi" "melancholic" [] 0 ≠
      generateAbhayResponse "hi" "melancholic" [] 1 := by
  decide

/-- C3 (amended).  `generateAbhayResponse` is deterministic only once the
random draw is fixed: it never reads the input text, and reads the memory
list only through its emptiness, so two invocations with the same emotion
and the same draw (and agreeing memory-emptiness) return byte-identical
text, while different draws may not (see the counterexample). -/
theorem generateAbhayResponse_deterministic_given_draw
    (input₁ input₂ emotion : String) (mems₁ mems₂ : List Memory) (rand : Nat)
    (h : mems₁ = [] ↔ mems₂ = []) :
    generateAbhayResponse input₁ emotion mems₁ rand =
      generateAbhayResponse input₂ emotion mems₂ rand := by
  unfold generateAbhayResponse
  rcases mems₁ with _ | ⟨m, ms⟩ <;> rcases mems₂ with _ | ⟨m2, ms2⟩ <;> simp_all

/-- Witness for the amended C3: two different inputs, same draw, same text. -/
theorem generateAbhayResponse_deterministic_given_draw_witness :
    generateAbhayResponse "how are you" "romantic" [] 2 =
      generateAbhayResponse "hello there" "romantic" [] 2 :=
  generateAbhayResponse_deterministic_given_draw "how are you" "hello there"
    "romantic" [] [] 2 Iff.rfl

/-- C4 counterexample.  No hybrid ranking with recency tie-break exists: two
stored chunks match the query `"love"` with equal sparse keyword-overlap
score (and the code computes no dense score at all), yet the result ranks
the earlier-created chunk first, not the later one. -/
theorem hybrid_ranking_refuted :
    findRelevantMemories "love" [earlyMemory, lateMemory] =
      [earlyMemory, lateMemory] ∧
    earlyMemory.timestamp < lateMemory.timestamp ∧
    sparseScore "love" earlyMemory = sparseScore "love" lateMemory := by
  refine ⟨by decide, by decide, by decide⟩

/-- C4 (amended).  `findRelevantMemories` computes no score: it returns the
keyword-matching memories in their stored order — a sublist of the store —
truncated to the first three. -/
theorem findRelevantMemories_keyword_filter (query : String) (mems : List Memory) :
    (findRelevantMemories query mems).Sublist mems ∧
    (findRelevantMemories query mems).length ≤ 3 ∧
    ∀ m ∈ findRelevantMemories query mems,
      memoryMatches (splitOnSpaces (lowerString query)) m = true := by
  unfold findRelevantMemories
  refine ⟨(List.take_sublist _ _).trans (List.filter_sublist _), ?_, ?_⟩
  · simp only [List.length_take]
    omega
  · intro m hm
    exact List.of_mem_filter (List.mem_of_mem_take hm)

/-- C5 counterexample.  The retention-sweep property fails on the code:
annotate the stored memory of `retentionState` as `short_term` with a
one-hour TTL; at `now = 7200000` its age exceeds the TTL, yet the sweep
leaves it stored. -/
theorem retention_sweep_refuted :
    ¬ RetentionSweepCorrect (fun _ => RetentionClass.short_term) 3600000 := by
  intro h
  have hmem : staleShortTermMemory ∈
      (consolidateMemories 7200000 retentionState).memories := by decide
  have hle := (h 7200000 retentionState).1 staleShortTermMemory hmem rfl
  norm_num [staleShortTermMemory] at hle

/-- C5 (amended).  The code's sweep is oblivious to retention classes and
TTLs: whenever no interactions are recorded it leaves the state untouched,
so in particular a short-term chunk of any age survives it. -/
theorem consolidate_ignores_retention (now : Nat) (s : TrainerState)
    (h : s.interactions = []) : consolidateMemories now s = s := by
  simp [consolidateMemories, h]

/-- Witness for the amended C5: the sweep leaves the stale-memory state
unchanged. -/
theorem consolidate_ignores_retention_witness :
    retentionState.interactions = [] ∧
    consolidateMemories 7200000 retentionState = retentionState :=
  ⟨rfl, consolidate_ignores_retention 7200000 retentionState rfl⟩

/-- C9 counterexample.  A background timer does mutate shared emotional
state: one step of the 30-second personality timer, with random draw 0,
changes the experience state (its `emotionalState` becomes
`"melancholic"`). -/
theorem background_timer_mutation_refuted :
    emotionalStateTick 0 abhayExperienceState ≠ abhayExperienceState := by
  intro h
  have h2 := congrArg ExperienceState.emotionalState h
  simp only [emotionalStateTick] at h2
  norm_num [updateEmotionalStatePick, weightedPickAux, abhayEmotions,
    abhayExperienceState] at h2
  exact absurd h2 (by decide)

/-- C9 (amended).  The 30-second timer step installed by
`initializeAbhayPersonality` overwrites the shared `emotionalState` with a
weighted-random pick, so it changes the state whenever the current value
differs from the pick (and the 60-second timer applies
`consolidateMemories` to the shared trainer, `consolidationTick`). -/
theorem emotional_timer_step_changes_state (s : ExperienceState) (r : ℚ)
    (h : s.emotionalState ≠ updateEmotionalStatePick r) :
    emotionalStateTick r s ≠ s := by
  intro heq
  apply h
  have h2 := congrArg ExperienceState.emotionalState heq
  simp only [emotionalStateTick] at h2
  exact h2.symm

/-- Witness for the amended C9: draw 1/2 picks `"romantic"`, which differs
from the `"hopeful"` state, so the timer step changes the state. -/
theorem emotional_timer_step_changes_state_witness :
    emotionalStateTick (1/2) abhayExperienceState ≠ abhayExperienceState :=
  emotional_timer_step_changes_state abhayExperienceState (1/2) (by
    norm_num [abhayExperienceState, updateEmotionalStatePick, weightedPickAux,
      abhayEmotions]
    decide)

end Myprabh
